import Mathlib

/-
Shallow embedding of the realtime subscription transports of the bosbase C++
SDK: the SSE transport (src/src/realtime.cpp, RealtimeService) and the
WebSocket pub/sub transport (src/src/pubsub.cpp, PubSubService).

Modelling conventions:
  * nlohmann::json is an external collaborator; it is embedded as the `Json`
    inductive, and its parser (`nlohmann::json::parse`) is passed around as an
    arbitrary function `parseJ : List Char → Option Json` (none = the C++
    parser threw).
  * An application callback (a std::function) is a `Listener` carrying `lid`,
    the identity of one registration, and `ttype`, modelling the value of
    std::function::target_type(): two distinct callbacks may share a `ttype`
    (two function pointers, or two closures of the same closure type with
    different captures).
  * Mutex acquisition/release and real-time waits (polling loops, backoff
    sleeps, the 10 s / timeoutSeconds budgets) are erased: operations are
    modelled as sequential state transitions emitting a list of observable
    effects (HTTP POSTs, socket envelopes, hook and listener invocations,
    disconnects).  Where a blocking wait can only end in "connection became
    ready" or "timeout error", the outcome is abstracted by a Boolean oracle
    (`opens`) standing for whether the transport's open handler fired in time.
  * std::map iterates in key order; the registry is modelled as an association
    list with stable key positions, which is observationally equal for every
    order-insensitive property proved here.
-/

/-- JSON values, the shape of nlohmann::json payloads. -/
inductive Json where
  | null
  | bool (b : Bool)
  | num (n : Int)
  | str (s : String)
  | arr (xs : List Json)
  | obj (fields : List (String × Json))

/-- nlohmann `j.value(key, dflt)` for a string default: the value at `key`
when `j` is an object holding a string there, else the default. -/
def Json.valueStr (j : Json) (key dflt : String) : String :=
  match j with
  | Json.obj fields =>
    match fields.find? (fun p => p.1 == key) with
    | some p =>
      match p.2 with
      | Json.str v => v
      | _ => dflt
    | none => dflt
  | _ => dflt

/-- nlohmann `j.value(key, nlohmann::json{})`: the value at `key` when `j` is
an object with that key, else the default JSON value. -/
def Json.valueJ (j : Json) (key : String) (dflt : Json) : Json :=
  match j with
  | Json.obj fields =>
    match fields.find? (fun p => p.1 == key) with
    | some p => p.2
    | none => dflt
  | _ => dflt

/-- One registered callback: `lid` identifies the registration, `ttype`
models std::function::target_type() (not injective on distinct callbacks). -/
structure Listener where
  lid : Nat
  ttype : Nat
deriving Repr, DecidableEq

/-- The subscription registry: topic → listeners, as `std::map<std::string,
std::vector<std::function<...>>> subscriptions_`. -/
abbrev Registry := List (String × List Listener)

/-- `subscriptions_.find(t)` — lookup of a topic's listener vector. -/
def lookupTopic (subs : Registry) (t : String) : Option (List Listener) :=
  match subs with
  | [] => none
  | (k, v) :: rest => if k = t then some v else lookupTopic rest t

/-- `subscriptions_.erase(t)`. -/
def eraseTopic (subs : Registry) (t : String) : Registry :=
  subs.filter (fun p => p.1 ≠ t)

/-- Replace the listener vector stored at an existing key. -/
def setTopic (subs : Registry) (t : String) (v : List Listener) : Registry :=
  subs.map (fun p => if p.1 = t then (p.1, v) else p)

/-- `subscriptions_[t].push_back(l)`: append to the topic's vector, creating
the entry if absent. -/
def addTopicListener (subs : Registry) (t : String) (l : Listener) : Registry :=
  match subs with
  | [] => [(t, [l])]
  | (k, v) :: rest =>
    if k = t then (k, v ++ [l]) :: rest
    else (k, v) :: addTopicListener rest t l

/-- Errors surfaced to callers: std::invalid_argument and ClientResponseError. -/
inductive BErr where
  | invalidArgument (msg : String)
  | clientResponseError (msg : String)
deriving Repr, DecidableEq

/-! ## RealtimeService (SSE transport), src/src/realtime.cpp -/

/-- The mutable fields of RealtimeService: `subscriptions_`, `ready_`,
`client_id_`, whether `worker_` is joinable, `stop_`, and whether the
application installed an `onDisconnect` hook. -/
structure RTState where
  subs : Registry
  ready : Bool
  clientId : String
  threadUp : Bool
  stopFlag : Bool
  hookSet : Bool
deriving Repr, DecidableEq

/-- Observable actions of the SSE transport. -/
inductive RTEffect where
  /-- `client.send("/api/realtime", POST body {clientId, subscriptions})`. -/
  | post (clientId : String) (subscriptions : List String)
  /-- `disconnect()` was invoked. -/
  | disconnectCall
  /-- The `onDisconnect` hook was invoked with this topic list. -/
  | hook (topics : List String)
  /-- An application listener was invoked; `threw` records whether its body
  raised (the dispatcher catches and discards the exception). -/
  | listenerCall (lid : Nat) (payload : Json) (threw : Bool)

/-- The topics the resubmission POST announces: keys with a non-empty
listener vector (`if (!kv.second.empty()) active.push_back(kv.first)`). -/
def activeTopics (subs : Registry) : List String :=
  (subs.filter (fun p => ¬ p.2.isEmpty)).map Prod.fst

/-- RealtimeService::submitSubscriptions: no-op unless `ready_` and a
client id are known and the active set is non-empty; otherwise POSTs
`{clientId, subscriptions}`.  (RequestSender outcomes — the abort-swallowing
try/catch — are outside the model.) -/
def submitSubscriptions (s : RTState) : List RTEffect :=
  if s.ready = false ∨ s.clientId = "" then []
  else if (activeTopics s.subs).isEmpty then []
  else [RTEffect.post s.clientId (activeTopics s.subs)]

/-- RealtimeService::disconnect: set `stop_`, clear `ready_`, join worker. -/
def rtDisconnect (s : RTState) : RTState × List RTEffect :=
  ({s with stopFlag := true, ready := false, threadUp := false},
   [RTEffect.disconnectCall])

/-- RealtimeService::subscribe: reject an empty topic, register the callback,
ensure the worker thread, then resubmit.  (`ensureConnected`'s polling wait
mutates nothing and its timeout throw is a real-time behavior outside the
model.) -/
def rtSubscribe (s : RTState) (t : String) (l : Listener) :
    Except BErr (RTState × List RTEffect) :=
  if t = "" then Except.error (BErr.invalidArgument "topic must be set")
  else
    let s1 : RTState :=
      {s with subs := addTopicListener s.subs t l,
              threadUp := true,
              stopFlag := s.threadUp && s.stopFlag}
    Except.ok (s1, submitSubscriptions s1)

/-- The common tail of every RealtimeService unsubscribe path:
`submitSubscriptions(); if (subscriptions_.empty()) disconnect();` — `effs`
are the effects already emitted (the resubmission). -/
def rtFinish (s1 : RTState) (effs : List RTEffect) : RTState × List RTEffect :=
  if s1.subs.isEmpty then
    let d := rtDisconnect s1
    (d.1, effs ++ d.2)
  else (s1, effs)

/-- RealtimeService::unsubscribe: erase one topic (or all), resubmit, and
tear the connection down when the registry emptied. -/
def rtUnsubscribe (s : RTState) (t : Option String) : RTState × List RTEffect :=
  let subs' := match t with
    | some tt => eraseTopic s.subs tt
    | none => []
  let s1 := {s with subs := subs'}
  rtFinish s1 (submitSubscriptions s1)

/-- RealtimeService::unsubscribeByPrefix: drop every topic starting with the
given string (`it->first.rfind(p, 0) == 0`), resubmit once, tear down when
empty. -/
def rtUnsubscribeByPrefix (s : RTState) (p : String) : RTState × List RTEffect :=
  let subs' := s.subs.filter (fun q => ¬ q.1.startsWith p)
  let s1 := {s with subs := subs'}
  rtFinish s1 (submitSubscriptions s1)

/-- RealtimeService::unsubscribeByTopicAndListener — the body of the closure
returned by subscribe.  Absent topic: plain return.  Otherwise remove every
callback whose target_type matches (`std::remove_if ... fn.target_type() ==
listener.target_type()`), drop the entry if now empty, resubmit, tear down
when the registry emptied. -/
def rtUnsubscribeByTopicAndListener (s : RTState) (t : String) (l : Listener) :
    RTState × List RTEffect :=
  match lookupTopic s.subs t with
  | none => (s, [])
  | some vec =>
    let vec' := vec.filter (fun fn => fn.ttype ≠ l.ttype)
    let subs' := if vec'.isEmpty then eraseTopic s.subs t else setTopic s.subs t vec'
    let s1 := {s with subs := subs'}
    rtFinish s1 (submitSubscriptions s1)

/-- The dispatch loop over a listener snapshot: each call sits in its own
`try { cb(payload) } catch (...) {}`, so a raising listener is recorded with
`threw = true` and the loop continues. -/
def rtDispatch (fails : Nat → Bool) (payload : Json) : List Listener → List RTEffect
  | [] => []
  | l :: rest =>
    match (if fails l.lid then Except.error () else Except.ok ()) with
    | Except.ok _ =>
      RTEffect.listenerCall l.lid payload false :: rtDispatch fails payload rest
    | Except.error _ =>
      RTEffect.listenerCall l.lid payload true :: rtDispatch fails payload rest

/-- RealtimeService::handleEvent.  `PB_CONNECT` is the control frame: record
the client id, set ready, resubmit, invoke the hook with an empty list (its
own try/catch swallows hook errors), and return without dispatching.  Any
other event name is a topic: snapshot its listeners and dispatch. -/
def rtHandleEvent (fails : Nat → Bool) (s : RTState) (event : String)
    (payload : Json) : RTState × List RTEffect :=
  if event = "PB_CONNECT" then
    let s1 := {s with clientId := payload.valueStr "clientId" "", ready := true}
    (s1, submitSubscriptions s1 ++ (if s.hookSet then [RTEffect.hook []] else []))
  else
    (s, rtDispatch fails payload ((lookupTopic s.subs event).getD []))

/-- The (lid, payload) pairs of the listener invocations among the effects. -/
def rtListenerCalls (effs : List RTEffect) : List (Nat × Json) :=
  effs.filterMap (fun e =>
    match e with
    | RTEffect.listenerCall lid p _ => some (lid, p)
    | _ => none)

/-! ## The SSE stream parser (RealtimeService::realtimeWrite) -/

/-- The per-frame accumulators (`eventName`, `data`, `id` — function-local
statics in realtimeWrite). -/
structure FrameAcc where
  eventName : List Char
  data : List Char
  id : List Char
deriving Repr, DecidableEq

/-- The accumulator values at frame start. -/
def initAcc : FrameAcc := ⟨"message".toList, [], []⟩

/-- A frame handed to handleEvent: the event name and the parsed payload. -/
structure SSEFrame where
  eventName : List Char
  payload : Json

/-- Split a byte sequence at every newline: the complete lines, and the
trailing remainder that holds no newline (kept in the rolling buffer). -/
def splitNL : List Char → List (List Char) × List Char
  | [] => ([], [])
  | c :: rest =>
    let r := splitNL rest
    if c = '\n' then ([] :: r.1, r.2)
    else
      match r.1 with
      | [] => ([], c :: r.2)
      | l :: ls => ((c :: l) :: ls, r.2)

/-- Strip one trailing carriage return from a line. -/
def stripCR (l : List Char) : List Char :=
  match l.getLast? with
  | some '\r' => l.dropLast
  | _ => l

/-- Payload of a completed frame: null when no data accumulated, the parsed
JSON when `nlohmann::json::parse` succeeds, else the raw wrapper object. -/
def mkPayload (parseJ : List Char → Option Json) (d : List Char) : Json :=
  if d.isEmpty then Json.null
  else
    match parseJ d with
    | some j => j
    | none => Json.obj [("raw", Json.str (String.mk d))]

/-- Process one line of the stream: a blank line completes the frame and
resets the accumulators; a `:` comment is skipped; a `field: value` line
(first colon, one leading space of the value stripped) updates `event`
(empty value falls back to "message"), appends to `data` with a trailing
newline, or sets `id`; an unknown field is ignored. -/
def processLine (parseJ : List Char → Option Json) (acc : FrameAcc)
    (rawLine : List Char) : FrameAcc × Option SSEFrame :=
  let line := stripCR rawLine
  if line.isEmpty then
    (initAcc, some ⟨acc.eventName, mkPayload parseJ acc.data⟩)
  else if line.head? = some ':' then (acc, none)
  else
    let field := line.takeWhile (fun c => c ≠ ':')
    let rawValue := (line.dropWhile (fun c => c ≠ ':')).tail
    let value := if rawValue.head? = some ' ' then rawValue.tail else rawValue
    if field = "event".toList then
      ({acc with eventName := if value.isEmpty then "message".toList else value}, none)
    else if field = "data".toList then
      ({acc with data := acc.data ++ value ++ ['\n']}, none)
    else if field = "id".toList then
      ({acc with id := value}, none)
    else (acc, none)

/-- Fold processLine over the complete lines, collecting emitted frames. -/
def processLines (parseJ : List Char → Option Json) (acc : FrameAcc) :
    List (List Char) → FrameAcc × List SSEFrame
  | [] => (acc, [])
  | line :: rest =>
    let r1 := processLine parseJ acc line
    let r2 := processLines parseJ r1.1 rest
    (r2.1, (match r1.2 with | some f => [f] | none => []) ++ r2.2)

/-- The parser state across write-callback invocations: the rolling `buffer`
and the per-frame accumulators. -/
structure SSEPState where
  buffer : List Char
  acc : FrameAcc
deriving Repr, DecidableEq

/-- Parser state at stream start. -/
def initSSE : SSEPState := ⟨[], initAcc⟩

/-- RealtimeService::realtimeWrite for one chunk: append to the buffer,
process every complete line, keep the remainder. -/
def feed (parseJ : List Char → Option Json) (s : SSEPState) (chunk : List Char) :
    SSEPState × List SSEFrame :=
  let r := splitNL (s.buffer ++ chunk)
  let pr := processLines parseJ s.acc r.1
  (⟨r.2, pr.1⟩, pr.2)

/-- Deliver a sequence of chunks through consecutive write callbacks. -/
def feedAll (parseJ : List Char → Option Json) (s : SSEPState) :
    List (List Char) → SSEPState × List SSEFrame
  | [] => (s, [])
  | c :: cs =>
    let r1 := feed parseJ s c
    let r2 := feedAll parseJ r1.1 cs
    (r2.1, r1.2 ++ r2.2)

/-! ## PubSubService (WebSocket transport), src/src/pubsub.cpp -/

/-- The struct PubSubMessage of include/bosbase/services/pubsub.h. -/
structure PubSubMessage where
  id : String
  topic : String
  created : String
  data : Json

/-- The mutable fields of PubSubService: `subscriptions_`, `ready_`,
`manual_close_`, and whether `thread_` is joinable. -/
structure PSState where
  subs : Registry
  ready : Bool
  manualClose : Bool
  threadUp : Bool
deriving Repr, DecidableEq

/-- Observable actions of the WebSocket transport. -/
inductive PSEffect where
  /-- `client_.connect(con)` — a new connection attempt was started. -/
  | connect
  /-- `client_.send(hdl_, payload.dump(), text)` — one outgoing envelope. -/
  | send (payload : Json)
  /-- `client_.close(hdl_, normal, "closing")`. -/
  | closeSocket
  /-- `disconnect()` was invoked. -/
  | disconnectCall
  /-- An application listener was invoked; `threw` records whether its body
  raised (caught and discarded by the dispatch loop). -/
  | listenerCall (lid : Nat) (msg : PubSubMessage) (threw : Bool)

/-- PubSubService::sendEnvelope: silently dropped unless `ready_`. -/
def sendEnvelope (s : PSState) (payload : Json) : List PSEffect :=
  if s.ready then [PSEffect.send payload] else []

/-- PubSubService::disconnect: set `manual_close_` (suppressing the
auto-reconnect), close the socket if ready, stop and join the run thread. -/
def psDisconnect (s : PSState) : PSState × List PSEffect :=
  ({s with manualClose := true, ready := false, threadUp := false},
   (if s.ready then [PSEffect.closeSocket] else []) ++ [PSEffect.disconnectCall])

/-- PubSubService::ensureSocket: no-op when already ready; otherwise clear
`manual_close_`, start a connection and the run thread, and block until the
open handler sets `ready_` or the 10 s budget lapses.  `opens` abstracts
whether the open handler fires within the budget; on timeout the C++ code
throws ClientResponseError (the mutated `manual_close_` of that path is
unobserved by every property below). -/
def ensureSocket (opens : Bool) (s : PSState) :
    Except BErr (PSState × List PSEffect) :=
  if s.ready then Except.ok (s, [])
  else if opens then
    Except.ok ({s with manualClose := false, ready := true, threadUp := true},
               [PSEffect.connect])
  else Except.error (BErr.clientResponseError "PubSub connection not established")

/-- The outgoing publish envelope, fields in the order the code assigns them. -/
def publishEnvelope (t : String) (d : Json) : Json :=
  Json.obj [("type", Json.str "publish"), ("topic", Json.str t), ("data", d)]

/-- The outgoing subscribe envelope. -/
def subscribeEnvelope (t : String) : Json :=
  Json.obj [("type", Json.str "subscribe"), ("topic", Json.str t)]

/-- The outgoing per-topic unsubscribe envelope. -/
def unsubscribeTopicEnvelope (t : String) : Json :=
  Json.obj [("type", Json.str "unsubscribe"), ("topic", Json.str t)]

/-- The outgoing unsubscribe-all envelope (no topic field). -/
def unsubscribeAllEnvelope : Json :=
  Json.obj [("type", Json.str "unsubscribe")]

/-- PubSubService::publish: reject an empty topic, ensure the socket, send
the publish envelope, and return the local echo (`created` left empty, `id`
default) without awaiting any server acknowledgment. -/
def psPublish (opens : Bool) (s : PSState) (t : String) (d : Json) :
    Except BErr (PSState × List PSEffect × PubSubMessage) :=
  if t = "" then Except.error (BErr.invalidArgument "topic must be set")
  else
    match ensureSocket opens s with
    | Except.error e => Except.error e
    | Except.ok r =>
      Except.ok (r.1, r.2 ++ sendEnvelope r.1 (publishEnvelope t d),
                 ⟨"", t, "", d⟩)

/-- `auto& listeners = subscriptions_[topic]; first = listeners.empty();
listeners.push_back(cb)`: whether this was the topic's first listener, and
the updated registry. -/
def firstAndAdd (subs : Registry) (t : String) (cb : Listener) :
    Bool × Registry :=
  match lookupTopic subs t with
  | none => (true, subs ++ [(t, [cb])])
  | some v => (v.isEmpty, setTopic subs t (v ++ [cb]))

/-- PubSubService::subscribe: reject an empty topic, register the callback,
ensure the socket, and send one subscribe envelope iff this was the topic's
first listener.  (On the ensureSocket-throw path the C++ code leaves the
callback registered; the error result of the model carries no state, and no
property below reads that path.) -/
def psSubscribe (opens : Bool) (s : PSState) (t : String) (cb : Listener) :
    Except BErr (PSState × List PSEffect) :=
  if t = "" then Except.error (BErr.invalidArgument "topic must be set")
  else
    match ensureSocket opens {s with subs := (firstAndAdd s.subs t cb).2} with
    | Except.error e => Except.error e
    | Except.ok r =>
      Except.ok (r.1, r.2 ++
        (if (firstAndAdd s.subs t cb).1 then sendEnvelope r.1 (subscribeEnvelope t)
         else []))

/-- The common tail of the PubSub unsubscribe paths:
`if (subscriptions_.empty()) disconnect();` after the already-emitted
effects `effs`. -/
def psFinish (s1 : PSState) (effs : List PSEffect) : PSState × List PSEffect :=
  if s1.subs.isEmpty then
    let d := psDisconnect s1
    (d.1, effs ++ d.2)
  else (s1, effs)

/-- The body of the closure returned by PubSubService::subscribe: plain
return when the topic is absent; otherwise remove every callback whose
target_type matches, and if the vector emptied drop the entry and send the
unsubscribe envelope; tear everything down when the registry emptied. -/
def psClosure (s : PSState) (t : String) (cb : Listener) :
    PSState × List PSEffect :=
  match lookupTopic s.subs t with
  | none => (s, [])
  | some vec =>
    let vec' := vec.filter (fun fn => fn.ttype ≠ cb.ttype)
    let subs' := if vec'.isEmpty then eraseTopic s.subs t else setTopic s.subs t vec'
    let s1 := {s with subs := subs'}
    psFinish s1
      (if vec'.isEmpty then sendEnvelope s1 (unsubscribeTopicEnvelope t) else [])

/-- PubSubService::unsubscribe: erase one topic (or clear all), send the
matching unsubscribe envelope, tear down when the registry emptied. -/
def psUnsubscribe (s : PSState) (t : Option String) : PSState × List PSEffect :=
  let subs' := match t with
    | some tt => eraseTopic s.subs tt
    | none => []
  let s1 := {s with subs := subs'}
  psFinish s1
    (sendEnvelope s1 (match t with
      | some tt => unsubscribeTopicEnvelope tt
      | none => unsubscribeAllEnvelope))

/-- The close/fail handler: clear `ready_`; when the closure was not manual,
wait and call ensureSocket again (a throw of that reconnect escapes into the
io loop and leaves `ready_` false). -/
def psOnClose (opens : Bool) (s : PSState) : PSState :=
  let s1 := {s with ready := false}
  if s1.manualClose then s1
  else
    match ensureSocket opens s1 with
    | Except.ok r => r.1
    | Except.error _ => s1

/-- The dispatch loop of PubSubService::handleMessage: per-listener
`try { cb(msg) } catch (...) {}`. -/
def psDispatch (fails : Nat → Bool) (msg : PubSubMessage) :
    List Listener → List PSEffect
  | [] => []
  | l :: rest =>
    match (if fails l.lid then Except.error () else Except.ok ()) with
    | Except.ok _ =>
      PSEffect.listenerCall l.lid msg false :: psDispatch fails msg rest
    | Except.error _ =>
      PSEffect.listenerCall l.lid msg true :: psDispatch fails msg rest

/-- The PubSubMessage PubSubService::handleMessage builds from a payload's
`id`/`topic`/`created`/`data` fields. -/
def psMsgOf (payload : Json) : PubSubMessage :=
  ⟨payload.valueStr "id" "", payload.valueStr "topic" "",
   payload.valueStr "created" "", payload.valueJ "data" Json.null⟩

/-- PubSubService::handleMessage: build the PubSubMessage from the payload,
snapshot the topic's listeners under the lock, then invoke each outside it. -/
def psHandleMessage (fails : Nat → Bool) (s : PSState) (payload : Json) :
    PSState × List PSEffect :=
  (s, psDispatch fails (psMsgOf payload)
        ((lookupTopic s.subs (psMsgOf payload).topic).getD []))

/-- The message handler installed in the constructor: parse the text frame;
a parse failure is swallowed by the surrounding `catch (...)` — the message
is dropped with no listener invocation and no error. -/
def psOnMessage (parseJ : List Char → Option Json) (fails : Nat → Bool)
    (s : PSState) (raw : List Char) : PSState × List PSEffect :=
  match parseJ raw with
  | none => (s, [])
  | some j => psHandleMessage fails s j

/-- The (lid, message) pairs of the listener invocations among the effects. -/
def psListenerCalls (effs : List PSEffect) : List (Nat × PubSubMessage) :=
  effs.filterMap (fun e =>
    match e with
    | PSEffect.listenerCall lid m _ => some (lid, m)
    | _ => none)

/-- The payloads of the outgoing envelopes among the effects. -/
def sendsOf (effs : List PSEffect) : List Json :=
  effs.filterMap (fun e =>
    match e with
    | PSEffect.send p => some p
    | _ => none)

/-! ## Supporting lemmas -/

theorem splitNL_cons (c : Char) (x : List Char) :
    splitNL (c :: x) =
      if c = '\n' then ([] :: (splitNL x).1, (splitNL x).2)
      else
        match (splitNL x).1 with
        | [] => ([], c :: (splitNL x).2)
        | l :: ls => ((c :: l) :: ls, (splitNL x).2) := rfl

theorem splitNL_append (x y : List Char) :
    splitNL (x ++ y) =
      ((splitNL x).1 ++ (splitNL ((splitNL x).2 ++ y)).1,
       (splitNL ((splitNL x).2 ++ y)).2) := by
  induction x with
  | nil => simp [splitNL]
  | cons c x ih =>
    by_cases hc : c = '\n'
    · subst hc
      simp [List.cons_append, splitNL_cons, ih]
    · cases hA : (splitNL x).1 with
      | nil =>
        cases hB : (splitNL ((splitNL x).2 ++ y)).1 with
        | nil => simp [List.cons_append, splitNL_cons, hc, ih, hA, hB]
        | cons b bs => simp [List.cons_append, splitNL_cons, hc, ih, hA, hB]
      | cons l ls => simp [List.cons_append, splitNL_cons, hc, ih, hA]

theorem splitNL_rest (x : List Char) :
    splitNL (splitNL x).2 = ([], (splitNL x).2) := by
  induction x with
  | nil => simp [splitNL]
  | cons c x ih =>
    by_cases hc : c = '\n'
    · simp [splitNL_cons, hc, ih]
    · cases hA : (splitNL x).1 with
      | nil =>
        simp only [splitNL_cons, hc, if_false, hA]
        simp [ih]
      | cons l ls => simp [splitNL_cons, hc, hA, ih]

theorem processLines_append (pj : List Char → Option Json) (acc : FrameAcc)
    (l1 l2 : List (List Char)) :
    processLines pj acc (l1 ++ l2) =
      ((processLines pj (processLines pj acc l1).1 l2).1,
       (processLines pj acc l1).2 ++ (processLines pj (processLines pj acc l1).1 l2).2) := by
  induction l1 generalizing acc with
  | nil => simp [processLines]
  | cons line rest ih => simp [processLines, ih]

theorem feed_append (pj : List Char → Option Json) (s : SSEPState) (a b : List Char) :
    feed pj s (a ++ b) =
      ((feed pj (feed pj s a).1 b).1,
       (feed pj s a).2 ++ (feed pj (feed pj s a).1 b).2) := by
  simp only [feed, ← List.append_assoc]
  rw [splitNL_append (s.buffer ++ a) b, processLines_append]

theorem setTopic_cons (k : String) (vv : List Listener) (rest : Registry)
    (t : String) (v : List Listener) :
    setTopic ((k, vv) :: rest) t v =
      (if k = t then (k, v) else (k, vv)) :: setTopic rest t v := by
  simp only [setTopic, List.map_cons]

theorem lookupTopic_setTopic_self (subs : Registry) (t : String)
    (v w : List Listener) (h : lookupTopic subs t = some w) :
    lookupTopic (setTopic subs t v) t = some v := by
  induction subs with
  | nil => simp [lookupTopic] at h
  | cons p rest ih =>
    obtain ⟨k, vv⟩ := p
    rw [setTopic_cons]
    by_cases hk : k = t
    · rw [if_pos hk]
      simp [lookupTopic, hk]
    · rw [if_neg hk]
      simp only [lookupTopic, hk, if_false] at h
      simp [lookupTopic, hk, ih h]

theorem setTopic_ne_nil (subs : Registry) (t : String) (v : List Listener)
    (h : subs ≠ []) : setTopic subs t v ≠ [] := by
  simpa [setTopic] using h

theorem lookupTopic_some_ne_nil (subs : Registry) (t : String)
    (w : List Listener) (h : lookupTopic subs t = some w) : subs ≠ [] := by
  intro hn
  subst hn
  simp [lookupTopic] at h

theorem addTopicListener_ne_nil (subs : Registry) (t : String) (l : Listener) :
    addTopicListener subs t l ≠ [] := by
  cases subs with
  | nil => simp [addTopicListener]
  | cons p rest =>
    simp only [addTopicListener]
    split <;> simp

theorem rtListenerCalls_rtDispatch (fails : Nat → Bool) (payload : Json)
    (ls : List Listener) :
    rtListenerCalls (rtDispatch fails payload ls) =
      ls.map (fun l => (l.lid, payload)) := by
  induction ls with
  | nil => simp [rtDispatch, rtListenerCalls]
  | cons l rest ih =>
    by_cases h : fails l.lid <;>
      simp [rtDispatch, rtListenerCalls, h, ← ih, List.filterMap]

theorem psListenerCalls_psDispatch (fails : Nat → Bool) (msg : PubSubMessage)
    (ls : List Listener) :
    psListenerCalls (psDispatch fails msg ls) =
      ls.map (fun l => (l.lid, msg)) := by
  induction ls with
  | nil => simp [psDispatch, psListenerCalls]
  | cons l rest ih =>
    by_cases h : fails l.lid <;>
      simp [psDispatch, psListenerCalls, h, ← ih, List.filterMap]

theorem rtListenerCalls_submit (s : RTState) :
    rtListenerCalls (submitSubscriptions s) = [] := by
  unfold submitSubscriptions
  split
  · simp [rtListenerCalls]
  · split <;> simp [rtListenerCalls]

theorem rtListenerCalls_append (a b : List RTEffect) :
    rtListenerCalls (a ++ b) = rtListenerCalls a ++ rtListenerCalls b := by
  simp [rtListenerCalls]

theorem sendsOf_append (a b : List PSEffect) :
    sendsOf (a ++ b) = sendsOf a ++ sendsOf b := by
  simp [sendsOf]

theorem sendsOf_psDisconnect (s : PSState) :
    sendsOf (psDisconnect s).2 = [] := by
  unfold psDisconnect
  split <;> simp [sendsOf]

theorem mem_activeTopics (subs : Registry) (t : String) :
    t ∈ activeTopics subs ↔ ∃ p ∈ subs, p.1 = t ∧ p.2 ≠ [] := by
  constructor
  · intro h
    simp only [activeTopics, List.mem_map, List.mem_filter] at h
    obtain ⟨p, ⟨hp, hne⟩, ht⟩ := h
    exact ⟨p, hp, ht, by simpa using hne⟩
  · intro ⟨p, hp, ht, hne⟩
    simp only [activeTopics, List.mem_map, List.mem_filter]
    exact ⟨p, ⟨hp, by simpa using hne⟩, ht⟩

/-! ## The claims -/

/-- C4: for every byte sequence fed to the SSE stream parser, splitting it
into any number of consecutive write-callback invocations yields exactly the
same parser state and the same sequence of emitted frames (event name and
payload) as one invocation delivering the whole sequence; the per-frame
accumulators survive read boundaries (the hypothesis — the rolling buffer
holds no complete line, which holds initially and after every feed — is the
single-instance invariant of realtimeWrite's statics). -/
theorem c4_split_invariance (pj : List Char → Option Json) (s : SSEPState)
    (chunks : List (List Char)) (h : splitNL s.buffer = ([], s.buffer)) :
    feedAll pj s chunks = feed pj s chunks.flatten := by
  induction chunks generalizing s with
  | nil =>
    obtain ⟨buf, acc⟩ := s
    simp only [SSEPState.mk.injEq] at h
    simp [feedAll, feed, List.flatten, processLines, h]
  | cons c cs ih =>
    have h1 : splitNL (feed pj s c).1.buffer = ([], (feed pj s c).1.buffer) := by
      simpa [feed] using splitNL_rest (s.buffer ++ c)
    rw [List.flatten_cons, feed_append, ← ih _ h1]
    simp [feedAll]

/-- C4 witness: the spec's own example — a frame split as "data: a" then
"b\n\n" parses to the same single frame as the whole sequence at once. -/
theorem c4_split_invariance_witness :
    splitNL (initSSE.buffer) = ([], initSSE.buffer) ∧
    feedAll (fun _ => none) initSSE ["data: a".toList, "b\n\n".toList] =
      feed (fun _ => none) initSSE (["data: a".toList, "b\n\n".toList].flatten) ∧
    (feedAll (fun _ => none) initSSE ["data: a".toList, "b\n\n".toList]).2 =
      [⟨"message".toList, Json.obj [("raw", Json.str "ab\n")]⟩] :=
  ⟨rfl, c4_split_invariance (fun _ => none) initSSE _ rfl, rfl⟩

/-- C3: a PB_CONNECT frame with payload containing clientId = cid records the
client id, sets ready (Connected), emits exactly the resubmission effects
followed by the disconnect-hook invocation with an empty topic list (when a
hook is installed), and produces no application-listener invocation — even
when a listener is registered for the topic "PB_CONNECT". -/
theorem c3_pb_connect (fails : Nat → Bool) (s : RTState) (cid : String) :
    rtHandleEvent fails s "PB_CONNECT" (Json.obj [("clientId", Json.str cid)]) =
      ({s with clientId := cid, ready := true},
       submitSubscriptions {s with clientId := cid, ready := true} ++
         (if s.hookSet then [RTEffect.hook []] else [])) ∧
    rtListenerCalls
      (rtHandleEvent fails s "PB_CONNECT"
        (Json.obj [("clientId", Json.str cid)])).2 = [] := by
  have hv : (Json.obj [("clientId", Json.str cid)]).valueStr "clientId" "" = cid := rfl
  constructor
  · simp [rtHandleEvent, hv]
  · have h1 : rtHandleEvent fails s "PB_CONNECT"
        (Json.obj [("clientId", Json.str cid)]) =
        ({s with clientId := cid, ready := true},
         submitSubscriptions {s with clientId := cid, ready := true} ++
           (if s.hookSet then [RTEffect.hook []] else [])) := by
      simp [rtHandleEvent, hv]
    rw [h1]
    simp only [rtListenerCalls_append, rtListenerCalls_submit, List.nil_append]
    split <;> simp [rtListenerCalls]

/-- C9: on both transports the dispatcher snapshots the topic's listener
list and invokes every listener in it with the same event, each call inside
its own catch-all: the list of performed invocations is the full snapshot in
order, for every choice of which listeners throw (`fails`), and the
dispatcher itself returns normally with the state unchanged. -/
theorem c9_listener_errors_isolated :
    (∀ (fails : Nat → Bool) (s : RTState) (event : String) (payload : Json),
      event ≠ "PB_CONNECT" →
        (rtHandleEvent fails s event payload).1 = s ∧
        rtListenerCalls (rtHandleEvent fails s event payload).2 =
          ((lookupTopic s.subs event).getD []).map (fun l => (l.lid, payload))) ∧
    (∀ (fails : Nat → Bool) (s : PSState) (payload : Json),
      (psHandleMessage fails s payload).1 = s ∧
      psListenerCalls (psHandleMessage fails s payload).2 =
        ((lookupTopic s.subs (psMsgOf payload).topic).getD []).map
          (fun l => (l.lid, psMsgOf payload))) := by
  constructor
  · intro fails s event payload he
    simp [rtHandleEvent, he, rtListenerCalls_rtDispatch]
  · intro fails s payload
    simp [psHandleMessage, psListenerCalls_psDispatch]

/-- C9 witness: with two listeners on topic "t" and the first one throwing,
both are still invoked with the same payload. -/
theorem c9_listener_errors_isolated_witness :
    (rtHandleEvent (fun lid => lid == 1)
      (⟨[("t", [⟨1, 0⟩, ⟨2, 0⟩])], true, "abc", true, false, false⟩ : RTState)
      "t" Json.null).1 =
      (⟨[("t", [⟨1, 0⟩, ⟨2, 0⟩])], true, "abc", true, false, false⟩ : RTState) ∧
    rtListenerCalls
      (rtHandleEvent (fun lid => lid == 1)
        (⟨[("t", [⟨1, 0⟩, ⟨2, 0⟩])], true, "abc", true, false, false⟩ : RTState)
        "t" Json.null).2 = [(1, Json.null), (2, Json.null)] := by
  have h := c9_listener_errors_isolated.1 (fun lid => lid == 1)
    ⟨[("t", [⟨1, 0⟩, ⟨2, 0⟩])], true, "abc", true, false, false⟩ "t" Json.null
    (by decide)
  exact ⟨h.1, h.2⟩

/-- C10: an empty topic is rejected with std::invalid_argument("topic must
be set") on the first line of RealtimeService::subscribe,
PubSubService::subscribe and PubSubService::publish — before any registry or
connection mutation, so the error result carries no successor state at all. -/
theorem c10_empty_topic_rejected :
    (∀ (s : RTState) (cb : Listener),
      rtSubscribe s "" cb =
        Except.error (BErr.invalidArgument "topic must be set")) ∧
    (∀ (opens : Bool) (s : PSState) (cb : Listener),
      psSubscribe opens s "" cb =
        Except.error (BErr.invalidArgument "topic must be set")) ∧
    (∀ (opens : Bool) (s : PSState) (d : Json),
      psPublish opens s "" d =
        Except.error (BErr.invalidArgument "topic must be set")) := by
  refine ⟨fun s cb => ?_, fun opens s cb => ?_, fun opens s d => ?_⟩ <;>
    simp [rtSubscribe, psSubscribe, psPublish]

/-- C7: publish with a non-empty topic ensures a ready socket first
(connecting when not ready), sends exactly the publish envelope
type/topic/data, and returns the local echo mirroring topic and data with an
empty created stamp — nothing in the result awaits a server response. -/
theorem c7_publish_echo (opens : Bool) (s : PSState) (t : String) (d : Json)
    (r : PSState × List PSEffect × PubSubMessage)
    (h : psPublish opens s t d = Except.ok r) :
    sendsOf r.2.1 = [publishEnvelope t d] ∧
    r.2.2.topic = t ∧ r.2.2.data = d ∧ r.2.2.created = "" ∧
    r.1.ready = true ∧
    (s.ready = false → PSEffect.connect ∈ r.2.1) := by
  by_cases ht : t = ""
  · simp [psPublish, ht] at h
  · rw [psPublish, if_neg ht] at h
    unfold ensureSocket at h
    by_cases hr : s.ready
    · rw [if_pos hr] at h
      simp only [Except.ok.injEq] at h
      subst h
      simp [sendEnvelope, sendsOf, hr]
    · simp only [hr, Bool.false_eq_true, if_false] at h
      by_cases ho : opens
      · rw [if_pos ho] at h
        simp only [Except.ok.injEq] at h
        subst h
        simp [sendEnvelope, sendsOf]
      · simp [ho] at h

/-- C7 witness: publishing before any connection exists connects first,
sends the envelope once, and echoes topic and data. -/
theorem c7_publish_echo_witness :
    psPublish true (⟨[], false, false, false⟩ : PSState) "t" Json.null =
      Except.ok (⟨[], true, false, true⟩,
        [PSEffect.connect, PSEffect.send (publishEnvelope "t" Json.null)],
        ⟨"", "t", "", Json.null⟩) ∧
    (sendsOf [PSEffect.connect, PSEffect.send (publishEnvelope "t" Json.null)] =
        [publishEnvelope "t" Json.null] ∧
      ("t" : String) = "t" ∧ Json.null = Json.null ∧ ("" : String) = "" ∧
      true = true ∧
      ((false : Bool) = false →
        PSEffect.connect ∈
          [PSEffect.connect, PSEffect.send (publishEnvelope "t" Json.null)])) :=
  ⟨rfl, c7_publish_echo true ⟨[], false, false, false⟩ "t" Json.null
    (⟨[], true, false, true⟩,
     [PSEffect.connect, PSEffect.send (publishEnvelope "t" Json.null)],
     ⟨"", "t", "", Json.null⟩) rfl⟩

/-- C8: a completed SSE frame whose accumulated data is non-empty but does
not parse emits the raw-wrapper payload, and a WebSocket text message that
does not parse is dropped silently — state unchanged, no listener invoked,
no error raised. -/
theorem c8_malformed_payloads :
    (∀ (pj : List Char → Option Json) (acc : FrameAcc),
      acc.data ≠ [] → pj acc.data = none →
        processLine pj acc [] =
          (initAcc,
           some ⟨acc.eventName,
                 Json.obj [("raw", Json.str (String.mk acc.data))]⟩)) ∧
    (∀ (pj : List Char → Option Json) (fails : Nat → Bool) (s : PSState)
        (raw : List Char),
      pj raw = none → psOnMessage pj fails s raw = (s, [])) := by
  constructor
  · intro pj acc hd hp
    simp [processLine, stripCR, mkPayload, hd, hp]
  · intro pj fails s raw hp
    simp [psOnMessage, hp]

/-- C8 witness: data "x" with a parser that rejects everything is wrapped as
the raw object, and the same WebSocket text is dropped with no effects. -/
theorem c8_malformed_payloads_witness :
    processLine (fun _ => none) (⟨"message".toList, "x".toList, []⟩ : FrameAcc) [] =
      (initAcc,
       some ⟨"message".toList, Json.obj [("raw", Json.str "x")]⟩) ∧
    psOnMessage (fun _ => none) (fun _ => false)
      (⟨[("t", [⟨1, 0⟩])], true, false, true⟩ : PSState) "x".toList =
      ((⟨[("t", [⟨1, 0⟩])], true, false, true⟩ : PSState), []) :=
  ⟨c8_malformed_payloads.1 (fun _ => none) ⟨"message".toList, "x".toList, []⟩
      (by decide) rfl,
   c8_malformed_payloads.2 (fun _ => none) (fun _ => false)
      ⟨[("t", [⟨1, 0⟩])], true, false, true⟩ "x".toList rfl⟩

theorem setTopic_eq_nil_iff (subs : Registry) (t : String) (v : List Listener) :
    setTopic subs t v = [] ↔ subs = [] := by
  simp [setTopic]

theorem isEmpty_false_of_ne_nil {α : Type} {l : List α} (h : l ≠ []) :
    l.isEmpty = false := by
  cases l with
  | nil => exact absurd rfl h
  | cons a as => rfl

/-- C1 counterexample: two distinct listeners (registration ids 1 and 2)
whose callbacks share a target type (`ttype` 5 — e.g. two closures of the
same closure type with different captures, or two plain function pointers)
are registered on topic "t" of the SSE transport.  Invoking the unsubscribe
closure for listener 1 (`unsubscribeByTopicAndListener`, which removes by
`target_type()` comparison) erases the whole entry: listener 2 is no longer
registered and a subsequent event for "t" is delivered to nobody — the claim
requires listener 2 to stay registered and keep receiving events. -/
theorem c1_counterexample :
    lookupTopic
      (rtUnsubscribeByTopicAndListener
        (⟨[("t", [⟨1, 5⟩, ⟨2, 5⟩])], true, "abc", true, false, false⟩ : RTState)
        "t" ⟨1, 5⟩).1.subs "t" = none ∧
    rtListenerCalls
      (rtHandleEvent (fun _ => false)
        (rtUnsubscribeByTopicAndListener
          (⟨[("t", [⟨1, 5⟩, ⟨2, 5⟩])], true, "abc", true, false, false⟩ : RTState)
          "t" ⟨1, 5⟩).1 "t" Json.null).2 = [] :=
  ⟨rfl, rfl⟩

/-- C1 amended: the unsubscribe closure removes from its topic every
registration whose callback target type equals the given listener's; when
the other listener's target type differs, exactly the matching registrations
are removed, the other listener stays registered and still receives every
event dispatched for that topic — on both transports. -/
theorem c1_unsubscribe_closure_removes_by_target_type :
    (∀ (s : RTState) (t : String) (l l2 : Listener) (vec : List Listener),
      lookupTopic s.subs t = some vec → l2 ∈ vec → l2.ttype ≠ l.ttype →
        lookupTopic (rtUnsubscribeByTopicAndListener s t l).1.subs t =
          some (vec.filter (fun fn => fn.ttype ≠ l.ttype)) ∧
        (∀ (fails : Nat → Bool) (payload : Json), t ≠ "PB_CONNECT" →
          (l2.lid, payload) ∈ rtListenerCalls
            (rtHandleEvent fails
              (rtUnsubscribeByTopicAndListener s t l).1 t payload).2)) ∧
    (∀ (s : PSState) (t : String) (l l2 : Listener) (vec : List Listener),
      lookupTopic s.subs t = some vec → l2 ∈ vec → l2.ttype ≠ l.ttype →
        lookupTopic (psClosure s t l).1.subs t =
          some (vec.filter (fun fn => fn.ttype ≠ l.ttype)) ∧
        (∀ (fails : Nat → Bool) (payload : Json),
          (psMsgOf payload).topic = t →
          (l2.lid, psMsgOf payload) ∈ psListenerCalls
            (psHandleMessage fails (psClosure s t l).1 payload).2)) := by
  constructor
  · intro s t l l2 vec hl hmem htt
    have hmem' : l2 ∈ vec.filter (fun fn => fn.ttype ≠ l.ttype) := by
      simp only [List.mem_filter, decide_eq_true_eq]
      exact ⟨hmem, htt⟩
    have hne : vec.filter (fun fn => fn.ttype ≠ l.ttype) ≠ [] :=
      List.ne_nil_of_mem hmem'
    have hres : (rtUnsubscribeByTopicAndListener s t l).1 =
        {s with subs := setTopic s.subs t (vec.filter (fun fn => fn.ttype ≠ l.ttype))} := by
      have hforall : ¬ ∀ a ∈ vec, a.ttype = l.ttype :=
        fun hall => htt (hall l2 hmem)
      simp [rtUnsubscribeByTopicAndListener, rtFinish, hl, hforall,
        setTopic_eq_nil_iff, lookupTopic_some_ne_nil s.subs t vec hl]
    have hlook : lookupTopic (rtUnsubscribeByTopicAndListener s t l).1.subs t =
        some (vec.filter (fun fn => fn.ttype ≠ l.ttype)) := by
      rw [hres]
      exact lookupTopic_setTopic_self s.subs t _ vec hl
    refine ⟨hlook, fun fails payload ht => ?_⟩
    simp only [rtHandleEvent, ht, if_false, rtListenerCalls_rtDispatch, hlook,
      Option.getD_some, List.mem_map]
    exact ⟨l2, hmem', rfl⟩
  · intro s t l l2 vec hl hmem htt
    have hmem' : l2 ∈ vec.filter (fun fn => fn.ttype ≠ l.ttype) := by
      simp only [List.mem_filter, decide_eq_true_eq]
      exact ⟨hmem, htt⟩
    have hne : vec.filter (fun fn => fn.ttype ≠ l.ttype) ≠ [] :=
      List.ne_nil_of_mem hmem'
    have hres : (psClosure s t l).1 =
        {s with subs := setTopic s.subs t (vec.filter (fun fn => fn.ttype ≠ l.ttype))} := by
      have hforall : ¬ ∀ a ∈ vec, a.ttype = l.ttype :=
        fun hall => htt (hall l2 hmem)
      simp [psClosure, psFinish, hl, hforall, setTopic_eq_nil_iff,
        lookupTopic_some_ne_nil s.subs t vec hl]
    have hlook : lookupTopic (psClosure s t l).1.subs t =
        some (vec.filter (fun fn => fn.ttype ≠ l.ttype)) := by
      rw [hres]
      exact lookupTopic_setTopic_self s.subs t _ vec hl
    refine ⟨hlook, fun fails payload ht => ?_⟩
    simp only [psHandleMessage, psListenerCalls_psDispatch, ht, hlook,
      Option.getD_some, List.mem_map]
    exact ⟨l2, hmem', rfl⟩

/-- C1 witness: listeners 1 (ttype 5) and 2 (ttype 7) on topic "t"; the
closure for listener 1 leaves listener 2 registered and delivered to. -/
theorem c1_unsubscribe_closure_removes_by_target_type_witness :
    lookupTopic
      (rtUnsubscribeByTopicAndListener
        (⟨[("t", [⟨1, 5⟩, ⟨2, 7⟩])], true, "abc", true, false, false⟩ : RTState)
        "t" ⟨1, 5⟩).1.subs "t" = some [⟨2, 7⟩] ∧
    (2, Json.null) ∈ rtListenerCalls
      (rtHandleEvent (fun _ => false)
        (rtUnsubscribeByTopicAndListener
          (⟨[("t", [⟨1, 5⟩, ⟨2, 7⟩])], true, "abc", true, false, false⟩ : RTState)
          "t" ⟨1, 5⟩).1 "t" Json.null).2 := by
  have h := c1_unsubscribe_closure_removes_by_target_type.1
    ⟨[("t", [⟨1, 5⟩, ⟨2, 7⟩])], true, "abc", true, false, false⟩
    "t" ⟨1, 5⟩ ⟨2, 7⟩ [⟨1, 5⟩, ⟨2, 7⟩] rfl (by decide) (by decide)
  exact ⟨h.1, h.2 (fun _ => false) Json.null (by decide)⟩

/-- C2 counterexample: unsubscribing the last topic "A" while Connected with
ClientId "abc" changes the active-topic set (to ∅) while Connected with a
known ClientId, yet submitSubscriptions emits no POST at all (the code
returns early on an empty active set): the whole effect list of the
operation is just the teardown, with no `post` effect — the claim requires a
POST whose subscriptions field equals the (empty) active set. -/
theorem c2_counterexample :
    (⟨[("A", [⟨1, 0⟩])], true, "abc", true, false, false⟩ : RTState).ready = true ∧
    (⟨[("A", [⟨1, 0⟩])], true, "abc", true, false, false⟩ : RTState).clientId = "abc" ∧
    rtUnsubscribe
      (⟨[("A", [⟨1, 0⟩])], true, "abc", true, false, false⟩ : RTState) (some "A") =
      (⟨[], false, "abc", false, true, false⟩, [RTEffect.disconnectCall]) ∧
    submitSubscriptions (⟨[], true, "abc", true, false, false⟩ : RTState) = [] :=
  ⟨rfl, rfl, rfl, rfl⟩

/-- C2 amended: a resubmission POSTs `{clientId, subscriptions}` with the
subscriptions field exactly the set of topics holding at least one listener
whenever that set is non-empty and the transport is Connected with a known
ClientId; when no ClientId is known (or not Connected), and also when the
active set is empty, the resubmission performs no POST. -/
theorem c2_resubmission_exact_set (s : RTState) :
    ((s.ready = false ∨ s.clientId = "") → submitSubscriptions s = []) ∧
    (s.ready = true → s.clientId ≠ "" → activeTopics s.subs = [] →
      submitSubscriptions s = []) ∧
    (s.ready = true → s.clientId ≠ "" → activeTopics s.subs ≠ [] →
      submitSubscriptions s = [RTEffect.post s.clientId (activeTopics s.subs)]) ∧
    (∀ t, t ∈ activeTopics s.subs ↔ ∃ p ∈ s.subs, p.1 = t ∧ p.2 ≠ []) := by
  refine ⟨?_, ?_, ?_, mem_activeTopics s.subs⟩
  · intro h
    simp [submitSubscriptions, h]
  · intro h1 h2 h3
    simp [submitSubscriptions, h1, h2, h3]
  · intro h1 h2 h3
    rw [submitSubscriptions, if_neg (by simp [h1, h2]),
      if_neg (by simpa [List.isEmpty_iff] using h3)]

/-- C2 witness: with one listener on "A", Connected as "abc", the POST
carries exactly ["A"]. -/
theorem c2_resubmission_exact_set_witness :
    submitSubscriptions
      (⟨[("A", [⟨1, 0⟩])], true, "abc", true, false, false⟩ : RTState) =
      [RTEffect.post "abc" ["A"]] :=
  (c2_resubmission_exact_set
    ⟨[("A", [⟨1, 0⟩])], true, "abc", true, false, false⟩).2.2.1
    rfl (by decide) (by decide)

theorem firstAndAdd_fst (subs : Registry) (t : String) (cb : Listener) :
    (firstAndAdd subs t cb).1 = ((lookupTopic subs t).getD []).isEmpty := by
  unfold firstAndAdd
  cases hL : lookupTopic subs t <;> simp [hL]

theorem firstAndAdd_ne_nil (subs : Registry) (t : String) (cb : Listener) :
    (firstAndAdd subs t cb).2 ≠ [] := by
  unfold firstAndAdd
  cases hL : lookupTopic subs t with
  | none => simp
  | some v =>
    simp only [ne_eq, setTopic_eq_nil_iff]
    exact lookupTopic_some_ne_nil subs t v hL

/-- C5 counterexample: on the WebSocket transport a state with an empty
registry and an open, ready socket is reachable (subscribe "t"; invoke its
closure — registry empties and the socket closes; publish — ensureSocket
reopens the socket with the registry still empty).  Invoking a stale
unsubscribe closure in that state hits the absent-topic early return: the
registry is empty after the operation, yet no disconnect is invoked and the
socket stays ready — the connection is held open with an empty registry. -/
theorem c5_counterexample :
    psClosure (⟨[], true, false, true⟩ : PSState) "t" ⟨1, 0⟩ =
      ((⟨[], true, false, true⟩ : PSState), []) ∧
    (⟨[], true, false, true⟩ : PSState).subs = [] ∧
    (⟨[], true, false, true⟩ : PSState).ready = true :=
  ⟨rfl, rfl, rfl⟩

/-- C5 amended: unsubscribe and unsubscribeByPrefix always invoke disconnect
when they leave the registry empty, and so do the unsubscribe closures
provided they find their topic's entry (an absent topic returns before the
teardown check); subscribe never leaves the registry empty.  This holds on
both transports. -/
theorem c5_empty_registry_teardown :
    (∀ (s : RTState) (t : Option String),
      (rtUnsubscribe s t).1.subs = [] →
        RTEffect.disconnectCall ∈ (rtUnsubscribe s t).2) ∧
    (∀ (s : RTState) (p : String),
      (rtUnsubscribeByPrefix s p).1.subs = [] →
        RTEffect.disconnectCall ∈ (rtUnsubscribeByPrefix s p).2) ∧
    (∀ (s : RTState) (t : String) (l : Listener),
      lookupTopic s.subs t ≠ none →
      (rtUnsubscribeByTopicAndListener s t l).1.subs = [] →
        RTEffect.disconnectCall ∈ (rtUnsubscribeByTopicAndListener s t l).2) ∧
    (∀ (s : RTState) (t : String) (l : Listener) (r : RTState × List RTEffect),
      rtSubscribe s t l = Except.ok r → r.1.subs ≠ []) ∧
    (∀ (s : PSState) (t : Option String),
      (psUnsubscribe s t).1.subs = [] →
        PSEffect.disconnectCall ∈ (psUnsubscribe s t).2) ∧
    (∀ (s : PSState) (t : String) (cb : Listener),
      lookupTopic s.subs t ≠ none →
      (psClosure s t cb).1.subs = [] →
        PSEffect.disconnectCall ∈ (psClosure s t cb).2) ∧
    (∀ (opens : Bool) (s : PSState) (t : String) (cb : Listener)
        (r : PSState × List PSEffect),
      psSubscribe opens s t cb = Except.ok r → r.1.subs ≠ []) := by
  have rtFin : ∀ (s1 : RTState) (effs : List RTEffect),
      (rtFinish s1 effs).1.subs = [] →
        RTEffect.disconnectCall ∈ (rtFinish s1 effs).2 := by
    intro s1 effs
    unfold rtFinish
    split
    · intro _
      simp [rtDisconnect]
    · next hcond =>
      intro h
      exact absurd (by simpa [List.isEmpty_iff] using h : s1.subs.isEmpty = true)
        hcond
  have psFin : ∀ (s1 : PSState) (effs : List PSEffect),
      (psFinish s1 effs).1.subs = [] →
        PSEffect.disconnectCall ∈ (psFinish s1 effs).2 := by
    intro s1 effs
    unfold psFinish
    split
    · intro _
      simp [psDisconnect]
    · next hcond =>
      intro h
      exact absurd (by simpa [List.isEmpty_iff] using h : s1.subs.isEmpty = true)
        hcond
  refine ⟨?_, ?_, ?_, ?_, ?_, ?_, ?_⟩
  · intro s t
    simp only [rtUnsubscribe]
    exact rtFin _ _
  · intro s p
    simp only [rtUnsubscribeByPrefix]
    exact rtFin _ _
  · intro s t l hl
    obtain ⟨vec, hv⟩ := Option.ne_none_iff_exists'.mp hl
    simp only [rtUnsubscribeByTopicAndListener, hv]
    exact rtFin _ _
  · intro s t l r h
    by_cases ht : t = ""
    · simp [rtSubscribe, ht] at h
    · rw [rtSubscribe, if_neg ht] at h
      simp only [Except.ok.injEq] at h
      subst h
      simpa using addTopicListener_ne_nil s.subs t l
  · intro s t
    simp only [psUnsubscribe]
    exact psFin _ _
  · intro s t cb hl
    obtain ⟨vec, hv⟩ := Option.ne_none_iff_exists'.mp hl
    simp only [psClosure, hv]
    exact psFin _ _
  · intro opens s t cb r h
    by_cases ht : t = ""
    · simp [psSubscribe, ht] at h
    · rw [psSubscribe, if_neg ht] at h
      unfold ensureSocket at h
      by_cases hr : (({s with subs := (firstAndAdd s.subs t cb).2} : PSState)).ready = true
      · rw [if_pos hr] at h
        simp only [Except.ok.injEq] at h
        subst h
        simpa using firstAndAdd_ne_nil s.subs t cb
      · rw [if_neg hr] at h
        by_cases ho : opens
        · rw [if_pos ho] at h
          simp only [Except.ok.injEq] at h
          subst h
          simpa using firstAndAdd_ne_nil s.subs t cb
        · simp [ho] at h

/-- C5 witness: removing the last topic while Connected tears the SSE
connection down. -/
theorem c5_empty_registry_teardown_witness :
    RTEffect.disconnectCall ∈
      (rtUnsubscribe
        (⟨[("A", [⟨1, 0⟩])], true, "abc", true, false, false⟩ : RTState)
        (some "A")).2 :=
  c5_empty_registry_teardown.1
    ⟨[("A", [⟨1, 0⟩])], true, "abc", true, false, false⟩ (some "A") rfl

/-- C6 counterexample: after a server-side close whose reconnect fails (the
close handler leaves `ready_` false), the sole listener of topic "t" is
still registered.  Invoking its unsubscribe closure removes the last
listener of "t" — but `sendEnvelope` silently drops the unsubscribe envelope
because the socket is not ready: no {"type":"unsubscribe"} envelope is sent
at the moment of removal, where the claim requires exactly one. -/
theorem c6_counterexample :
    psOnClose false (⟨[("t", [⟨1, 0⟩])], true, false, true⟩ : PSState) =
      (⟨[("t", [⟨1, 0⟩])], false, false, true⟩ : PSState) ∧
    sendsOf
      (psClosure (⟨[("t", [⟨1, 0⟩])], false, false, true⟩ : PSState)
        "t" ⟨1, 0⟩).2 = [] ∧
    (psClosure (⟨[("t", [⟨1, 0⟩])], false, false, true⟩ : PSState)
      "t" ⟨1, 0⟩).1.subs = [] :=
  ⟨rfl, rfl, rfl⟩

/-- C6 amended: on the WebSocket transport, adding the first listener for a
topic sends exactly one subscribe envelope at registration and further
listeners send none (subscribe's own ensureSocket guarantees a ready socket
whenever it returns); removing the last listener for a topic sends exactly
one unsubscribe envelope when the socket is ready at that moment and none
when it is not; removing a non-last listener sends nothing. -/
theorem c6_envelope_per_registration :
    (∀ (opens : Bool) (s : PSState) (t : String) (cb : Listener)
        (r : PSState × List PSEffect),
      (lookupTopic s.subs t).getD [] = [] →
      psSubscribe opens s t cb = Except.ok r →
        sendsOf r.2 = [subscribeEnvelope t]) ∧
    (∀ (opens : Bool) (s : PSState) (t : String) (cb : Listener)
        (r : PSState × List PSEffect),
      (lookupTopic s.subs t).getD [] ≠ [] →
      psSubscribe opens s t cb = Except.ok r → sendsOf r.2 = []) ∧
    (∀ (s : PSState) (t : String) (cb : Listener) (vec : List Listener),
      lookupTopic s.subs t = some vec →
      vec.filter (fun fn => fn.ttype ≠ cb.ttype) = [] →
      s.ready = true →
        sendsOf (psClosure s t cb).2 = [unsubscribeTopicEnvelope t]) ∧
    (∀ (s : PSState) (t : String) (cb : Listener) (vec : List Listener),
      lookupTopic s.subs t = some vec →
      vec.filter (fun fn => fn.ttype ≠ cb.ttype) = [] →
      s.ready = false →
        sendsOf (psClosure s t cb).2 = []) ∧
    (∀ (s : PSState) (t : String) (cb : Listener) (vec : List Listener),
      lookupTopic s.subs t = some vec →
      vec.filter (fun fn => fn.ttype ≠ cb.ttype) ≠ [] →
        sendsOf (psClosure s t cb).2 = []) := by
  refine ⟨?_, ?_, ?_, ?_, ?_⟩
  · intro opens s t cb r hfirst h
    by_cases ht : t = ""
    · simp [psSubscribe, ht] at h
    · rw [psSubscribe, if_neg ht] at h
      unfold ensureSocket at h
      have hfa : (firstAndAdd s.subs t cb).1 = true := by
        rw [firstAndAdd_fst, hfirst]
        rfl
      by_cases hr : (({s with subs := (firstAndAdd s.subs t cb).2} : PSState)).ready = true
      · rw [if_pos hr] at h
        simp only [Except.ok.injEq] at h
        subst h
        simp only at hr
        simp [sendsOf, hfa, sendEnvelope, hr]
      · rw [if_neg hr] at h
        by_cases ho : opens
        · rw [if_pos ho] at h
          simp only [Except.ok.injEq] at h
          subst h
          simp [sendsOf, hfa, sendEnvelope]
        · simp [ho] at h
  · intro opens s t cb r hfirst h
    by_cases ht : t = ""
    · simp [psSubscribe, ht] at h
    · rw [psSubscribe, if_neg ht] at h
      unfold ensureSocket at h
      have hfa : (firstAndAdd s.subs t cb).1 = false := by
        rw [firstAndAdd_fst]
        exact isEmpty_false_of_ne_nil hfirst
      by_cases hr : (({s with subs := (firstAndAdd s.subs t cb).2} : PSState)).ready = true
      · rw [if_pos hr] at h
        simp only [Except.ok.injEq] at h
        subst h
        simp [sendsOf, hfa]
      · rw [if_neg hr] at h
        by_cases ho : opens
        · rw [if_pos ho] at h
          simp only [Except.ok.injEq] at h
          subst h
          simp [sendsOf, hfa]
        · simp [ho] at h
  · intro s t cb vec hv hfilt hready
    simp only [psClosure, hv]
    rw [hfilt]
    by_cases he : eraseTopic s.subs t = []
    · simp [psFinish, he, sendEnvelope, psDisconnect, hready, sendsOf]
    · simp [psFinish, he, sendEnvelope, psDisconnect, hready, sendsOf]
  · intro s t cb vec hv hfilt hready
    simp only [psClosure, hv]
    rw [hfilt]
    by_cases he : eraseTopic s.subs t = []
    · simp [psFinish, he, sendEnvelope, psDisconnect, hready, sendsOf]
    · simp [psFinish, he, sendEnvelope, psDisconnect, hready, sendsOf]
  · intro s t cb vec hv hfilt
    have hb := isEmpty_false_of_ne_nil hfilt
    have hb2 := isEmpty_false_of_ne_nil
      (setTopic_ne_nil s.subs t (vec.filter (fun fn => fn.ttype ≠ cb.ttype))
        (lookupTopic_some_ne_nil s.subs t vec hv))
    simp only [psClosure, hv, hb, hb2, Bool.false_eq_true, if_false, psFinish]
    rfl

/-- C6 witness: the first listener for "t" on a fresh transport sends
exactly one subscribe envelope; the connect effect is not a send. -/
theorem c6_envelope_per_registration_witness :
    sendsOf
      ((⟨[("t", [⟨1, 0⟩])], true, false, true⟩ : PSState),
        [PSEffect.connect, PSEffect.send (subscribeEnvelope "t")]).2 =
      [subscribeEnvelope "t"] :=
  c6_envelope_per_registration.1 true (⟨[], false, false, false⟩ : PSState)
    "t" ⟨1, 0⟩
    ((⟨[("t", [⟨1, 0⟩])], true, false, true⟩ : PSState),
      [PSEffect.connect, PSEffect.send (subscribeEnvelope "t")]) rfl rfl
